import Mathlib

set_option autoImplicit false

/-! Research-paper appraisal application.

A shallow embedding of the research endpoints (`backend/routes/research.js`), the paper
schema (`backend/models/ResearchPaper.js`) and the client components `App`, `Dashboard`
and `UploadPaper`, followed by the properties established about them.

The document store and the object-document mapper are external to the repository.  The
store is a pair of collections; what the mapper does on inputs the schema does not settle
(casting of the optional paths, the wording of error messages) is carried by a `Lib`
record, and what varies per request (a driver fault, the clock, the generated identifier)
by an `Env` record.
-/

namespace Appraisal

/-! ## JSON values -/

/-- A JSON value as produced by the body parser.  A number is carried as the text
JavaScript prints for it, which is all the code below ever asks of a number. -/
inductive JVal where
  | null
  | bool (b : Bool)
  | num (text : String)
  | str (s : String)
  | arr (items : List JVal)
  | obj (fields : List (String × JVal))

/-- Property read `v[key]` on a parsed JSON value: only an object carries named fields. -/
def JVal.field (v : JVal) (key : String) : Option JVal :=
  match v with
  | .obj fields => fields.lookup key
  | _ => none

/-! ## Data model (`models/ResearchPaper.js`) -/

/-- An object identifier in canonical form: 24 lower-case hexadecimal digits. -/
abbrev ObjectId := String

/-- One hexadecimal digit, either case. -/
def isHexDigit (c : Char) : Bool :=
  ('0' ≤ c && c ≤ '9') || ('a' ≤ c && c ≤ 'f') || ('A' ≤ c && c ≤ 'F')

/-- Cast of a string to an object identifier, as the current driver performs it: exactly
24 hexadecimal digits, read case-insensitively; anything else is a cast failure. -/
def castObjectId (s : String) : Option ObjectId :=
  if s.data.length = 24 ∧ s.data.all isHexDigit = true then
    some (String.mk (s.data.map Char.toLower))
  else none

/-- Entry of `authors`: `{ name: String, affiliation: String }`. -/
structure Author where
  name : Option String
  affiliation : Option String
  deriving DecidableEq, Repr

/-- Path `extractedFeatures`: three optional string lists. -/
structure ExtractedFeatures where
  concepts : List String
  technicalTerms : List String
  features : List String
  deriving DecidableEq, Repr

/-- A stored paper: the paths of `researchPaperSchema`, the identifier and the two
timestamps switched on by `timestamps: true`. -/
structure ResearchPaper where
  _id : ObjectId
  title : String
  abstract : String
  authors : List Author
  keywords : List String
  content : String
  extractedFeatures : ExtractedFeatures
  uploadedBy : ObjectId
  filePath : Option String
  uploadDate : Option Int
  createdAt : Int
  updatedAt : Int
  deriving DecidableEq, Repr

/-- Modelled from the spec: the User record kind, whose schema (`models/User`) is not part
of the sources; a paper points to it by identifier and the read side shows its username. -/
structure User where
  _id : ObjectId
  username : String
  deriving DecidableEq, Repr

/-- What `populate('uploadedBy', 'username')` leaves of a user: identifier and username. -/
structure UserRef where
  _id : ObjectId
  username : String
  deriving DecidableEq, Repr

/-- A paper as returned by the read handlers: `uploadedBy` replaced by the referenced
user, or by `null` (`none`) when the reference does not resolve. -/
structure PopulatedPaper where
  _id : ObjectId
  title : String
  abstract : String
  authors : List Author
  keywords : List String
  content : String
  extractedFeatures : ExtractedFeatures
  uploadedBy : Option UserRef
  filePath : Option String
  uploadDate : Option Int
  createdAt : Int
  updatedAt : Int
  deriving DecidableEq, Repr

/-- The document store: the paper collection in insertion order and the user collection. -/
structure Store where
  papers : List ResearchPaper
  users : List User
  deriving DecidableEq, Repr

/-! ## Errors and responses -/

/-- Errors the mapper or the driver can raise inside a handler. -/
inductive StoreError where
  /-- Construction `new ResearchPaper(x)` with `x` a primitive that is not an object. -/
  | objectParameter
  /-- Rejection of `save()` by schema validation, with the paths that failed. -/
  | validation (paths : List String)
  /-- Rejection of `findById` because the identifier does not cast. -/
  | castId (value : String)
  /-- Rejection of the insert because the identifier is already taken. -/
  | duplicateKey (id : ObjectId)
  /-- Any failure of the driver itself (connectivity, timeouts), with its text. -/
  | driver (text : String)
  deriving DecidableEq, Repr

/-- The JSON body of a response. -/
inductive Body where
  /-- Body of `res.json(paper)` in the create handler: the stored document. -/
  | record (paper : ResearchPaper)
  /-- Body of `res.json(paper)` in the single-paper handler: the populated document. -/
  | populated (paper : PopulatedPaper)
  /-- Body of `res.json(papers)`: the populated collection. -/
  | list (papers : List PopulatedPaper)
  /-- An object with the single field `message`. -/
  | messageOnly (message : String)
  /-- An object with the two fields `message` and `error`. -/
  | messageError (message : String) (error : String)
  deriving DecidableEq, Repr

/-- Status code and JSON body of a response. -/
structure Response where
  status : Nat
  body : Body
  deriving DecidableEq, Repr

/-- Field `message` of an error-shaped body, when it has one. -/
def Body.messageField : Body → Option String
  | .messageOnly m => some m
  | .messageError m _ => some m
  | _ => none

/-- Field `error` of an error-shaped body, when it has one. -/
def Body.errorField : Body → Option String
  | .messageError _ e => some e
  | _ => none

/-- Whether the body is a stored record or a list of stored records. -/
def Body.isRecords : Body → Bool
  | .record _ => true
  | .populated _ => true
  | .list _ => true
  | _ => false

/-! ## The mapper on a request body -/

/-- Outcome of casting the value found at one schema path. -/
inductive CastResult (α : Type) where
  /-- The path is `undefined` or `null` in the document. -/
  | absent
  /-- The path holds the cast value. -/
  | value (a : α)
  /-- The value does not cast to the type of the path. -/
  | failed
  deriving DecidableEq, Repr

/-- The optional paths of the schema after casting: `_id` when the body supplies one,
`authors`, `keywords`, `extractedFeatures`, `filePath`, and `uploadDate` (`none` when the
body leaves it out, so that the schema default applies; `some none` for an explicit null). -/
structure OptionalPaths where
  _id : Option ObjectId
  authors : List Author
  keywords : List String
  extractedFeatures : ExtractedFeatures
  filePath : Option String
  uploadDate : Option (Option Int)
  deriving DecidableEq, Repr

/-- Behaviour of the object-document mapper that the sources do not settle. -/
structure Lib where
  /-- Casting of the optional paths of a body: the cast values, or the paths that fail. -/
  castOptional : JVal → Except (List String) OptionalPaths
  /-- Casting to an object identifier of a body value that is neither a string nor null. -/
  castRefOther : JVal → CastResult ObjectId
  /-- The text the mapper puts in `error.message` for each error it raises itself. -/
  errorText : StoreError → String

/-- What varies from one request to the next. -/
structure Env where
  /-- A failure of the driver during this request, with its text, if there is one. -/
  fault : Option String
  /-- Value of `Date.now()`, in milliseconds. -/
  now : Int
  /-- The identifier generated for a new document when the body supplies none. -/
  freshId : ObjectId
  /-- The two timestamps attached on save under `timestamps: true`. -/
  createdAt : Int
  updatedAt : Int

/-- Cast of a body value at a path of type `String`: null stays null, a string is kept as
it is, a number or boolean is printed, an object with a non-empty string `_id` casts to
that string, and any other object or an array fails. -/
def castString : JVal → CastResult String
  | .null => .absent
  | .str s => .value s
  | .num text => .value text
  | .bool b => .value (if b then "true" else "false")
  | .arr _ => .failed
  | .obj fields =>
    match fields.lookup "_id" with
    | some (.str s) => if s = "" then .failed else .value s
    | _ => .failed

/-- Cast of a body value at a path of type `ObjectId`. -/
def castRef (lib : Lib) : JVal → CastResult ObjectId
  | .null => .absent
  | .str s =>
    match castObjectId s with
    | some oid => .value oid
    | none => .failed
  | v => lib.castRefOther v

/-- Cast at a path of the value a body holds there, an absent key being `undefined`. -/
def castPath {α : Type} (cast : JVal → CastResult α) : Option JVal → CastResult α
  | none => .absent
  | some v => cast v

/-- The document under construction: the four required paths after casting, and the
outcome of casting the optional ones. -/
structure Draft where
  title : CastResult String
  abstract : CastResult String
  content : CastResult String
  uploadedBy : CastResult ObjectId
  optional : Except (List String) OptionalPaths

/-- Construction `new ResearchPaper(req.body)`: a primitive argument is refused at once;
otherwise every schema path is cast from the body, cast failures being kept for `save`. -/
def construct (lib : Lib) (body : JVal) : Except StoreError Draft :=
  match body with
  | .bool _ => .error .objectParameter
  | .num _ => .error .objectParameter
  | .str _ => .error .objectParameter
  | _ =>
    .ok { title := castPath castString (body.field "title")
          abstract := castPath castString (body.field "abstract")
          content := castPath castString (body.field "content")
          uploadedBy := castPath (castRef lib) (body.field "uploadedBy")
          optional := lib.castOptional body }

/-- Validator `required: true` on a `String` path: passes on a non-empty string only. -/
def requiredString (path : String) : CastResult String → List String
  | .value s => if s = "" then [path] else []
  | _ => [path]

/-- Validator `required: true` on the `ObjectId` path: passes on any cast identifier. -/
def requiredRef (path : String) : CastResult ObjectId → List String
  | .value _ => []
  | _ => [path]

/-- The paths a draft fails validation at, in schema order. -/
def invalidPaths (d : Draft) : List String :=
  requiredString "title" d.title ++ requiredString "abstract" d.abstract
    ++ requiredString "content" d.content ++ requiredRef "uploadedBy" d.uploadedBy
    ++ (match d.optional with
        | .ok _ => []
        | .error paths => paths)

/-- The document a valid draft is stored as: the schema default `Date.now` fills
`uploadDate` when the body leaves it out. -/
def toPaper (env : Env) (title abstract content : String) (uploadedBy : ObjectId)
    (o : OptionalPaths) : ResearchPaper :=
  { _id := o._id.getD env.freshId
    title := title
    abstract := abstract
    authors := o.authors
    keywords := o.keywords
    content := content
    extractedFeatures := o.extractedFeatures
    uploadedBy := uploadedBy
    filePath := o.filePath
    uploadDate := match o.uploadDate with
      | none => some env.now
      | some d => d
    createdAt := env.createdAt
    updatedAt := env.updatedAt }

/-- Method `paper.save()`: validation first; then the insert, which the driver may fail
and which is refused when the identifier is already taken; on success the document is
appended to the collection. -/
def save (env : Env) (db : Store) (d : Draft) : Except StoreError (ResearchPaper × Store) :=
  match d.title, d.abstract, d.content, d.uploadedBy, d.optional, invalidPaths d with
  | .value t, .value a, .value c, .value u, .ok o, [] =>
    match env.fault with
    | some text => .error (.driver text)
    | none =>
      let paper := toPaper env t a c u o
      if db.papers.any (fun q => q._id == paper._id) then .error (.duplicateKey paper._id)
      else .ok (paper, { db with papers := db.papers ++ [paper] })
  | _, _, _, _, _, paths => .error (.validation paths)

/-! ## The store on the read side -/

/-- Query `ResearchPaper.find()`: the whole collection, unless the driver fails. -/
def find (env : Env) (db : Store) : Except StoreError (List ResearchPaper) :=
  match env.fault with
  | some text => .error (.driver text)
  | none => .ok db.papers

/-- Query `ResearchPaper.findById(id)`: the identifier is cast first; then the first
document with that identifier, or null. -/
def findById (env : Env) (db : Store) (id : String) : Except StoreError (Option ResearchPaper) :=
  match castObjectId id with
  | none => .error (.castId id)
  | some oid =>
    match env.fault with
    | some text => .error (.driver text)
    | none => .ok (db.papers.find? (fun p => p._id == oid))

/-- Step `.populate('uploadedBy', 'username')` on one document. -/
def populate (db : Store) (p : ResearchPaper) : PopulatedPaper :=
  { _id := p._id
    title := p.title
    abstract := p.abstract
    authors := p.authors
    keywords := p.keywords
    content := p.content
    extractedFeatures := p.extractedFeatures
    uploadedBy := (db.users.find? (fun u => u._id == p.uploadedBy)).map
      (fun u => { _id := u._id, username := u.username })
    filePath := p.filePath
    uploadDate := p.uploadDate
    createdAt := p.createdAt
    updatedAt := p.updatedAt }

/-! ## The three handlers (`routes/research.js`) -/

/-- Property `error.message`: a driver failure carries its own text, the errors of the
mapper carry the text the mapper words them with. -/
def StoreError.message (lib : Lib) : StoreError → String
  | .driver text => text
  | e => lib.errorText e

/-- The `catch` branch shared by the handlers:
`res.status(500).json({ message: 'Server error', error: error.message })`. -/
def serverError (lib : Lib) (e : StoreError) : Response :=
  { status := 500, body := .messageError "Server error" (e.message lib) }

/-- The operation inside `try` of `router.get('/')`. -/
def listOp (env : Env) (db : Store) : Except StoreError (List PopulatedPaper) :=
  (find env db).map (fun papers => papers.map (populate db))

/-- Handler `router.get('/')`. -/
def listHandler (lib : Lib) (env : Env) (db : Store) : Response :=
  match listOp env db with
  | .ok papers => { status := 200, body := .list papers }
  | .error e => serverError lib e

/-- The operation inside `try` of `router.get('/:id')`. -/
def getOp (env : Env) (db : Store) (id : String) : Except StoreError (Option PopulatedPaper) :=
  (findById env db id).map (fun found => found.map (populate db))

/-- Handler `router.get('/:id')`. -/
def getHandler (lib : Lib) (env : Env) (db : Store) (id : String) : Response :=
  match getOp env db id with
  | .ok none => { status := 404, body := .messageOnly "Research paper not found" }
  | .ok (some paper) => { status := 200, body := .populated paper }
  | .error e => serverError lib e

/-- The operation inside `try` of `router.post('/')`. -/
def createOp (lib : Lib) (env : Env) (db : Store) (body : JVal) :
    Except StoreError (ResearchPaper × Store) :=
  match construct lib body with
  | .error e => .error e
  | .ok d => save env db d

/-- Handler `router.post('/')`: the response and the store afterwards. -/
def createHandler (lib : Lib) (env : Env) (db : Store) (body : JVal) : Response × Store :=
  match createOp lib env db body with
  | .ok (paper, db') => ({ status := 201, body := .record paper }, db')
  | .error e => (serverError lib e, db)

/-- A sequence of create requests, each with its own environment, run one after the
other with no other write in between: the responses in order and the store at the end. -/
def createMany (lib : Lib) : Store → List (Env × JVal) → List Response × Store
  | db, [] => ([], db)
  | db, (env, body) :: rest =>
    let step := createHandler lib env db body
    let tail := createMany lib step.2 rest
    (step.1 :: tail.1, tail.2)

/-! ## Reference instances for concrete requests -/

/-- The optional paths of a body that supplies none of them: the schema defaults. -/
def OptionalPaths.defaults : OptionalPaths :=
  { _id := none
    authors := []
    keywords := []
    extractedFeatures := { concepts := [], technicalTerms := [], features := [] }
    filePath := none
    uploadDate := none }

/-- The keys of a body that address an optional path. -/
def optionalKeys : List String :=
  ["_id", "authors", "keywords", "extractedFeatures", "filePath", "uploadDate"]

/-- A reference instance of `Lib` for evaluating the handlers on concrete requests whose
bodies carry required paths only: such a body casts to the schema defaults.  A body that
addresses an optional path, or gives `uploadedBy` another shape than a string, is outside
what this instance evaluates and is reported as a cast failure at that path. -/
def Lib.basic : Lib :=
  { castOptional := fun body =>
      match optionalKeys.filter (fun k => (body.field k).isSome) with
      | [] => .ok OptionalPaths.defaults
      | paths => .error paths
    castRefOther := fun _ => .failed
    errorText := fun e =>
      match e with
      | .objectParameter => "ObjectParameterError"
      | .validation paths => "ValidationError: " ++ String.join paths
      | .castId value => "CastError: " ++ value
      | .duplicateKey id => "DuplicateKey: " ++ id
      | .driver text => text }

/-- A request environment without a driver fault, at clock reading `now`. -/
def Env.quiet (now : Int) (freshId : ObjectId) : Env :=
  { fault := none, now := now, freshId := freshId, createdAt := now, updatedAt := now }

/-- A request environment in which the driver fails with the given text. -/
def Env.failing (text : String) : Env :=
  { fault := some text, now := 0, freshId := "", createdAt := 0, updatedAt := 0 }

/-- The store with no paper and no user. -/
def Store.empty : Store := { papers := [], users := [] }

/-- The body of the spec example, with a well-formed `uploadedBy`. -/
def bodyABC : JVal :=
  .obj [("title", .str "A"), ("abstract", .str "B"), ("content", .str "C"),
        ("uploadedBy", .str "0123456789abcdef01234567")]

/-- The paper the spec example is stored as when the generated identifier is `id`. -/
def paperABC (id : ObjectId) (now : Int) : ResearchPaper :=
  { _id := id
    title := "A"
    abstract := "B"
    authors := []
    keywords := []
    content := "C"
    extractedFeatures := { concepts := [], technicalTerms := [], features := [] }
    uploadedBy := "0123456789abcdef01234567"
    filePath := none
    uploadDate := some now
    createdAt := now
    updatedAt := now }

/-- A store holding the paper of the spec example and the user it points to. -/
def Store.sample : Store :=
  { papers := [paperABC "aaaaaaaaaaaaaaaaaaaaaaaa" 5]
    users := [{ _id := "0123456789abcdef01234567", username := "ada" }] }

/-! ## Client: routing in `App` (`frontend/src/App.js`) -/

/-- The value of the `user` state when set by the load effect: `{ token }`. -/
structure AppUser where
  token : String
  deriving DecidableEq, Repr

/-- The two state cells of `App`. -/
structure AppState where
  user : Option AppUser
  loading : Bool
  deriving DecidableEq, Repr

/-- The five declared routes. -/
inductive RoutePath where
  | root
  | papers
  | upload
  | login
  | register
  deriving DecidableEq, Repr

/-- What `App` renders. -/
inductive View where
  | loadingNotice
  | dashboard
  | researchPapers
  | uploadPaper
  | loginPage
  | registerPage
  | navigate (target : String)
  deriving DecidableEq, Repr

namespace App

/-- State at first render: `useState(null)` and `useState(true)`. -/
def initial : AppState := { user := none, loading := true }

/-- The load effect.  The argument is the result of `localStorage.getItem('token')`:
`none` for null.  The test `if (token)` passes on a non-empty string only. -/
def loadEffect (stored : Option String) (s : AppState) : AppState :=
  let s1 : AppState :=
    match stored with
    | some token => if token = "" then s else { s with user := some { token := token } }
    | none => s
  { s1 with loading := false }

/-- The `element` of each declared route. -/
def element (s : AppState) : RoutePath → View
  | .root => .dashboard
  | .papers => .researchPapers
  | .upload => if s.user.isSome then .uploadPaper else .navigate "/login"
  | .login => if s.user.isSome then .navigate "/" else .loginPage
  | .register => if s.user.isSome then .navigate "/" else .registerPage

/-- What is rendered for a matched route: the loading notice while `loading` holds. -/
def render (s : AppState) (path : RoutePath) : View :=
  if s.loading then .loadingNotice else element s path

end App

/-! ## Client: dashboard statistics (`frontend/src/pages/Dashboard.js`) -/

/-- A paper as the client holds it.  Field `uploadTime` is the time value of
`new Date(p.uploadDate)` in milliseconds, `none` for an invalid date. -/
structure ListedPaper where
  _id : String
  title : String
  uploadTime : Option Int
  deriving DecidableEq, Repr

/-- The `stats` state. -/
structure Stats where
  totalPapers : Nat
  totalUsers : Nat
  recentUploads : Nat
  deriving DecidableEq, Repr

/-- The two state cells of `Dashboard`. -/
structure DashState where
  papers : List ListedPaper
  stats : Stats
  deriving DecidableEq, Repr

namespace Dashboard

/-- State at first render. -/
def initial : DashState :=
  { papers := [], stats := { totalPapers := 0, totalUsers := 0, recentUploads := 0 } }

/-- Seven days in milliseconds: `7 * 24 * 60 * 60 * 1000`. -/
def weekMs : Int := 7 * 24 * 60 * 60 * 1000

/-- The filter callback at clock reading `now`: `uploadDate > weekAgo`, which is false
for an invalid date. -/
def isRecent (now : Int) (p : ListedPaper) : Bool :=
  match p.uploadTime with
  | some t => decide (t > now - weekMs)
  | none => false

/-- The call `papers.filter(callback)`: the callback reads the clock afresh at each paper,
`clock k` being the reading taken at the paper of index `k`. -/
def keepRecent (clock : Nat → Int) : Nat → List ListedPaper → List ListedPaper
  | _, [] => []
  | k, p :: rest =>
    if isRecent (clock k) p then p :: keepRecent clock (k + 1) rest
    else keepRecent clock (k + 1) rest

/-- Function `fetchStats` as created by the render whose state is `captured`: the paper
list it reads is the one of that render, whatever the state is when it runs. -/
def fetchStats (captured : DashState) (clock : Nat → Int) (s : DashState) : DashState :=
  { s with stats :=
      { totalPapers := captured.papers.length
        totalUsers := 10
        recentUploads := (keepRecent clock 0 captured.papers).length } }

/-- Function `fetchPapers`, from the point where the request settles: the fetched list
replaces `papers`; a failed request is logged and leaves the state as it is. -/
def fetchPapers (response : Except String (List ListedPaper)) (s : DashState) : DashState :=
  match response with
  | .ok data => { s with papers := data }
  | .error _ => s

/-- The mount effect: `fetchPapers()` sends its request and yields, `fetchStats()` runs to
completion with the closures of the first render, and the request settles afterwards. -/
def mountEffect (response : Except String (List ListedPaper)) (clock : Nat → Int) :
    DashState :=
  fetchPapers response (fetchStats initial clock initial)

end Dashboard

/-! ## Client: the upload form (`frontend/src/pages/UploadPaper.js`) -/

mutual
/-- Conversion of a JSON value to a string, as the `+` operator and `join` perform it;
`none` when the conversion throws a TypeError.  A parsed object prints as
`[object Object]` through the inherited `toString`, unless it carries a field named
`toString` of its own: that field shadows the inherited method, is not callable, and the
inherited `valueOf` returns the object itself, so no primitive is obtained. -/
def JVal.toText : JVal → Option String
  | .null => some "null"
  | .bool b => some (if b then "true" else "false")
  | .num text => some text
  | .str s => some s
  | .arr items => joinItems items
  | .obj fields =>
    match fields.lookup "toString" with
    | some _ => none
    | none => some "[object Object]"
/-- Conversion of an array: the items, converted from left to right, joined by commas, a
null item printing as nothing; it throws as soon as an item does. -/
def joinItems : List JVal → Option String
  | [] => some ""
  | [.null] => some ""
  | [x] => x.toText
  | .null :: rest =>
    match joinItems rest with
    | some tail => some ("," ++ tail)
    | none => none
  | x :: rest =>
    match x.toText, joinItems rest with
    | some head, some tail => some (head ++ "," ++ tail)
    | _, _ => none
end

/-- Conversion to a string of a value that may be `undefined` (`none` as argument);
`none` as result when the conversion throws. -/
def jsText : Option JVal → Option String
  | none => some "undefined"
  | some v => v.toText

/-- A selected file. -/
structure File where
  name : String
  size : Nat
  deriving DecidableEq, Repr

/-- The state cells of `UploadPaper`. -/
structure FormState where
  file : Option File
  title : String
  abstract : String
  authors : String
  keywords : String
  uploading : Bool
  message : String
  deriving DecidableEq, Repr

/-- A value appended to the form data. -/
inductive FormValue where
  | blob (f : File)
  | text (s : String)
  deriving DecidableEq, Repr

/-- A request handed to the HTTP client. -/
structure HttpRequest where
  method : String
  url : String
  form : List (String × FormValue)
  headers : List (String × String)
  deriving DecidableEq, Repr

/-- A response as the HTTP client reports it; `data` is `none` when undefined. -/
structure HttpResponse where
  status : Nat
  data : Option JVal

/-- An error thrown by the HTTP client; `response` is `none` when no response arrived. -/
structure HttpError where
  message : String
  response : Option HttpResponse

namespace UploadPaper

/-- Expression `error.response?.data?.message`: `none` stands for `undefined`. -/
def responseMessage (e : HttpError) : Option JVal :=
  match e.response with
  | none => none
  | some r =>
    match r.data with
    | none => none
    | some .null => none
    | some d => d.field "message"

/-- Expression `'Error uploading paper: ' + error.response?.data?.message || error.message`:
the sum is formed first, and `||` falls back only if the sum is the empty string; `none`
when forming the sum throws. -/
def errorMessage (e : HttpError) : Option String :=
  match jsText (responseMessage e) with
  | none => none
  | some text =>
    let sum := "Error uploading paper: " ++ text
    some (if sum = "" then e.message else sum)

/-- The request built inside `try`; `token` is the result of
`localStorage.getItem('token')`, which the template prints as `null` when absent. -/
def uploadRequest (token : Option String) (file : File) (s : FormState) : HttpRequest :=
  { method := "POST"
    url := "http://localhost:5000/api/research/upload"
    form := [("file", .blob file), ("title", .text s.title), ("abstract", .text s.abstract),
             ("authors", .text s.authors), ("keywords", .text s.keywords)]
    headers := [("Content-Type", "multipart/form-data"),
                ("Authorization", "Bearer " ++ token.getD "null")] }

/-- Function `handleSubmit`, given how the request settles: the state afterwards and the
requests issued.  When the expression in `catch` throws, `setMessage` is not reached, and
`finally` still clears the uploading flag. -/
def handleSubmit (token : Option String) (outcome : Except HttpError HttpResponse)
    (s : FormState) : FormState × List HttpRequest :=
  match s.file with
  | none => ({ s with message := "Please fill in all required fields" }, [])
  | some file =>
    if s.title = "" ∨ s.abstract = "" then
      ({ s with message := "Please fill in all required fields" }, [])
    else
      let s1 : FormState := { s with uploading := true, message := "" }
      let s2 : FormState :=
        match outcome with
        | .ok _ =>
          { s1 with message := "Research paper uploaded successfully!", file := none,
                    title := "", abstract := "", authors := "", keywords := "" }
        | .error e =>
          match errorMessage e with
          | some text => { s1 with message := text }
          | none => s1
      ({ s2 with uploading := false }, [uploadRequest token file s])

/-- Whether the promise returned by `handleSubmit` rejects: it does when the request fails
and the expression in `catch` throws in turn, and in no other case. -/
def handleSubmitRejects (outcome : Except HttpError HttpResponse) (s : FormState) : Bool :=
  match s.file with
  | none => false
  | some _ =>
    if s.title = "" ∨ s.abstract = "" then false
    else
      match outcome with
      | .ok _ => false
      | .error e => (errorMessage e).isNone

end UploadPaper

/-- A complete form: file, title and abstract present, authors and keywords empty, and a
message left over from an earlier submission. -/
def filledForm : FormState :=
  { file := some { name := "p.pdf", size := 1 }
    title := "T"
    abstract := "A"
    authors := ""
    keywords := ""
    uploading := false
    message := "old" }

/-- A failed request whose response data is `{"message": "File too large"}`. -/
def tooLargeError : HttpError :=
  { message := "Request failed with status code 413"
    response := some { status := 413, data := some (.obj [("message", .str "File too large")]) } }

/-- A failed request whose response data is `{"message": {"toString": "x"}}`. -/
def unprintableError : HttpError :=
  { message := "Request failed with status code 400"
    response := some
      { status := 400, data := some (.obj [("message", .obj [("toString", .str "x")])]) } }

/-- A failed request without a response, as a network error is. -/
def networkError : HttpError :=
  { message := "Network Error", response := none }

/-! # Properties -/


/-! ## Shared lemmas on the create path -/

theorem save_invalid (env : Env) (db : Store) (d : Draft) (h : invalidPaths d ≠ []) :
    save env db d = .error (.validation (invalidPaths d)) := by
  unfold save
  split
  · next heq => exact absurd heq h
  · rfl

theorem construct_ok (lib : Lib) (body : JVal) (d : Draft) (h : construct lib body = .ok d) :
    d.title = castPath castString (body.field "title")
      ∧ d.abstract = castPath castString (body.field "abstract")
      ∧ d.content = castPath castString (body.field "content")
      ∧ d.uploadedBy = castPath (castRef lib) (body.field "uploadedBy")
      ∧ d.optional = lib.castOptional body := by
  cases body <;> simp [construct] at h <;> subst h <;> exact ⟨rfl, rfl, rfl, rfl, rfl⟩

theorem save_ok (env : Env) (db : Store) (d : Draft) (p : ResearchPaper) (db' : Store)
    (h : save env db d = .ok (p, db')) :
    db' = { db with papers := db.papers ++ [p] } ∧ (∀ q ∈ db.papers, q._id ≠ p._id)
      ∧ env.fault = none ∧ invalidPaths d = [] := by
  unfold save at h
  split at h
  · next heq =>
    cases hf : env.fault with
    | some text => simp [hf] at h
    | none =>
      simp only [hf] at h
      split at h
      · simp at h
      · next hany =>
        simp only [Except.ok.injEq, Prod.mk.injEq] at h
        obtain ⟨hp, hdb⟩ := h
        subst hp
        refine ⟨hdb.symm, ?_, rfl, heq⟩
        intro q hq hid
        apply hany
        rw [List.any_eq_true]
        exact ⟨q, hq, by simp [hid]⟩
  · simp at h

theorem createOp_ok (lib : Lib) (env : Env) (db : Store) (body : JVal) (p : ResearchPaper)
    (db' : Store) (h : createOp lib env db body = .ok (p, db')) :
    db' = { db with papers := db.papers ++ [p] } ∧ (∀ q ∈ db.papers, q._id ≠ p._id)
      ∧ env.fault = none := by
  unfold createOp at h
  cases hc : construct lib body with
  | error e => simp [hc] at h
  | ok d =>
    simp only [hc] at h
    obtain ⟨h1, h2, h3, -⟩ := save_ok env db d p db' h
    exact ⟨h1, h2, h3⟩

theorem createHandler_status (lib : Lib) (env : Env) (db : Store) (body : JVal) :
    (∀ p db', createOp lib env db body = .ok (p, db') →
        createHandler lib env db body = ({ status := 201, body := .record p }, db'))
      ∧ (∀ e, createOp lib env db body = .error e →
        createHandler lib env db body = (serverError lib e, db)) := by
  constructor
  · intro p db' h
    simp [createHandler, h]
  · intro e h
    simp [createHandler, h]

theorem createHandler_created (lib : Lib) (env : Env) (db : Store) (body : JVal)
    (h : (createHandler lib env db body).1.status = 201) :
    ∃ p, createHandler lib env db body
        = ({ status := 201, body := .record p }, { db with papers := db.papers ++ [p] })
      ∧ (∀ q ∈ db.papers, q._id ≠ p._id) := by
  cases hop : createOp lib env db body with
  | error e =>
    rw [(createHandler_status lib env db body).2 e hop] at h
    simp [serverError] at h
  | ok r =>
    obtain ⟨p, db'⟩ := r
    obtain ⟨hdb, hfresh, -⟩ := createOp_ok lib env db body p db' hop
    refine ⟨p, ?_, hfresh⟩
    rw [(createHandler_status lib env db body).1 p db' hop, hdb]

theorem createMany_created (lib : Lib) (reqs : List (Env × JVal)) (db : Store)
    (h : ∀ r ∈ (createMany lib db reqs).1, r.status = 201) :
    ∃ created : List ResearchPaper,
      (createMany lib db reqs).1
          = created.map (fun p => ({ status := 201, body := .record p } : Response))
        ∧ (createMany lib db reqs).2 = { db with papers := db.papers ++ created }
        ∧ created.length = reqs.length := by
  induction reqs generalizing db with
  | nil => exact ⟨[], by simp [createMany]⟩
  | cons req rest ih =>
    obtain ⟨env, body⟩ := req
    simp only [createMany, List.mem_cons, forall_eq_or_imp] at h
    obtain ⟨hhead, htail⟩ := h
    obtain ⟨p, hp, -⟩ := createHandler_created lib env db body hhead
    rw [hp] at htail
    obtain ⟨created, h1, h2, h3⟩ := ih _ htail
    refine ⟨p :: created, ?_, ?_, ?_⟩
    · simp only [createMany, hp, List.map_cons, h1]
    · simp only [createMany, hp, h2, List.append_assoc, List.singleton_append]
    · simp [h3]

theorem find?_id_of_nodup (papers : List ResearchPaper) (p : ResearchPaper) (hp : p ∈ papers)
    (hnodup : (papers.map (fun q => q._id)).Nodup) :
    papers.find? (fun q => q._id == p._id) = some p := by
  induction papers with
  | nil => simp at hp
  | cons x rest ih =>
    simp only [List.map_cons, List.nodup_cons, List.mem_map, not_exists, not_and] at hnodup
    rcases List.mem_cons.mp hp with h | h
    · subst h
      simp [List.find?]
    · have hne : x._id ≠ p._id := fun heq => hnodup.1 p h heq.symm
      have hb : (x._id == p._id) = false := by simpa using hne
      rw [List.find?_cons, hb]
      exact ih h hnodup.2

/-! ## Creating a paper -/

/-- C1: a body whose title, abstract and content are non-empty strings, whose uploadedBy is
a well-formed identifier and whose other paths cast, when the insert succeeds (no driver
fault, identifier not taken), is answered with status 201 and the stored paper, whose
title, abstract and content are the submitted ones, and that paper is appended to the
collection. -/
theorem create_round_trips (lib : Lib) (env : Env) (db : Store) (body : JVal)
    (t a c u : String) (oid : ObjectId) (o : OptionalPaths)
    (ht : body.field "title" = some (.str t)) (ht0 : t ≠ "")
    (ha : body.field "abstract" = some (.str a)) (ha0 : a ≠ "")
    (hc : body.field "content" = some (.str c)) (hc0 : c ≠ "")
    (hu : body.field "uploadedBy" = some (.str u)) (hoid : castObjectId u = some oid)
    (hopt : lib.castOptional body = .ok o)
    (hfault : env.fault = none)
    (hfresh : ∀ q ∈ db.papers, q._id ≠ o._id.getD env.freshId) :
    ∃ p : ResearchPaper,
      createHandler lib env db body
        = ({ status := 201, body := .record p }, { db with papers := db.papers ++ [p] })
      ∧ p.title = t ∧ p.abstract = a ∧ p.content = c := by
  refine ⟨toPaper env t a c oid o, ?_, rfl, rfl, rfl⟩
  have hany : db.papers.any (fun q => q._id == (toPaper env t a c oid o)._id) = false := by
    rw [List.any_eq_false]
    intro q hq
    simpa [toPaper] using hfresh q hq
  cases body with
  | obj fields =>
    simp only [createHandler, createOp, construct, ht, ha, hc, hu, hopt, castPath, castString,
      castRef, hoid, save, invalidPaths, requiredString, requiredRef, ht0, ha0, hc0, hfault,
      if_false, List.append_nil, hany]
    simp
  | _ => simp [JVal.field] at ht

/-- Witness for C1: the spec example on the empty store. -/
theorem create_round_trips_witness :
    ("A" ≠ "" ∧ castObjectId "0123456789abcdef01234567" = some "0123456789abcdef01234567"
      ∧ Lib.basic.castOptional bodyABC = .ok OptionalPaths.defaults)
    ∧ ∃ p : ResearchPaper,
      createHandler Lib.basic (Env.quiet 5 "aaaaaaaaaaaaaaaaaaaaaaaa") Store.empty bodyABC
        = ({ status := 201, body := .record p },
           { Store.empty with papers := Store.empty.papers ++ [p] })
      ∧ p.title = "A" ∧ p.abstract = "B" ∧ p.content = "C" :=
  ⟨⟨by decide, by decide, rfl⟩,
    create_round_trips Lib.basic (Env.quiet 5 "aaaaaaaaaaaaaaaaaaaaaaaa") Store.empty bodyABC
      "A" "B" "C" "0123456789abcdef01234567" "0123456789abcdef01234567"
      OptionalPaths.defaults rfl (by decide) rfl (by decide) rfl (by decide) rfl
      (by decide) rfl rfl (by intro q hq; cases hq)⟩

/-- C2: a body that lacks title, abstract or content fails schema validation (when it is
not a primitive, which is refused before any document exists), nothing is persisted, and
the response status is 500, outside the 2xx range. -/
theorem create_rejects_missing_required (lib : Lib) (env : Env) (db : Store) (body : JVal)
    (h : body.field "title" = none ∨ body.field "abstract" = none
      ∨ body.field "content" = none) :
    (∀ d, construct lib body = .ok d →
        invalidPaths d ≠ [] ∧ createOp lib env db body = .error (.validation (invalidPaths d)))
      ∧ (∀ fields, body = .obj fields → ∃ d, construct lib body = .ok d)
      ∧ (∃ e, createOp lib env db body = .error e)
      ∧ (createHandler lib env db body).2 = db
      ∧ (createHandler lib env db body).1.status = 500
      ∧ ¬ (200 ≤ (createHandler lib env db body).1.status
            ∧ (createHandler lib env db body).1.status < 300) := by
  have hinv : ∀ d, construct lib body = .ok d → invalidPaths d ≠ [] := by
    intro d hd
    obtain ⟨h1, h2, h3, -, -⟩ := construct_ok lib body d hd
    rcases h with h | h | h
    · simp [invalidPaths, h1, h, castPath, requiredString]
    · simp [invalidPaths, h2, h, castPath, requiredString]
    · simp [invalidPaths, h3, h, castPath, requiredString]
  have hval : ∀ d, construct lib body = .ok d →
      createOp lib env db body = .error (.validation (invalidPaths d)) := by
    intro d hd
    simp only [createOp, hd]
    exact save_invalid env db d (hinv d hd)
  have hop : ∃ e, createOp lib env db body = .error e := by
    cases hc : construct lib body with
    | error e => exact ⟨e, by simp [createOp, hc]⟩
    | ok d => exact ⟨_, hval d hc⟩
  obtain ⟨e, he⟩ := hop
  refine ⟨fun d hd => ⟨hinv d hd, hval d hd⟩, ?_, ⟨e, he⟩, ?_, ?_, ?_⟩
  · intro fields hb
    subst hb
    exact ⟨_, rfl⟩
  all_goals simp [createHandler, he, serverError]

/-- Witness for C2: a body with title and abstract but no content. -/
theorem create_rejects_missing_required_witness :
    (JVal.obj [("title", .str "A"), ("abstract", .str "B")]).field "content" = none
    ∧ (createHandler Lib.basic (Env.quiet 5 "aaaaaaaaaaaaaaaaaaaaaaaa") Store.sample
        (.obj [("title", .str "A"), ("abstract", .str "B")])).2 = Store.sample
    ∧ (createHandler Lib.basic (Env.quiet 5 "aaaaaaaaaaaaaaaaaaaaaaaa") Store.sample
        (.obj [("title", .str "A"), ("abstract", .str "B")])).1.status = 500 :=
  ⟨rfl,
    (create_rejects_missing_required Lib.basic (Env.quiet 5 "aaaaaaaaaaaaaaaaaaaaaaaa")
      Store.sample (.obj [("title", .str "A"), ("abstract", .str "B")])
      (Or.inr (Or.inr rfl))).2.2.2.1,
    (create_rejects_missing_required Lib.basic (Env.quiet 5 "aaaaaaaaaaaaaaaaaaaaaaaa")
      Store.sample (.obj [("title", .str "A"), ("abstract", .str "B")])
      (Or.inr (Or.inr rfl))).2.2.2.2.1⟩

/-! ## Reading one paper -/

/-- C3, counterexample: on the empty store, where no paper was ever created, the
identifier `abc` is answered with status 500 and the text of the cast error, not with 404
and the not-found message. -/
theorem get_malformed_id_is_server_error :
    Store.empty.papers = []
    ∧ getHandler Lib.basic (Env.quiet 0 "aaaaaaaaaaaaaaaaaaaaaaaa") Store.empty "abc"
        = { status := 500, body := .messageError "Server error" "CastError: abc" }
    ∧ getHandler Lib.basic (Env.quiet 0 "aaaaaaaaaaaaaaaaaaaaaaaa") Store.empty "abc"
        ≠ { status := 404, body := .messageOnly "Research paper not found" } := by
  decide

/-- C3, amended: when the driver does not fail, a well-formed identifier (24 hexadecimal
digits) that no stored paper carries is answered with 404 and the not-found message, and
the identifier of a stored paper with 200 and that paper, uploader resolved; an identifier
that is not well formed is answered with 500 and the text of the cast error. -/
theorem get_by_id_outcomes (lib : Lib) (env : Env) (db : Store) (id : String)
    (hfault : env.fault = none) :
    (castObjectId id = none → getHandler lib env db id = serverError lib (.castId id))
      ∧ (∀ oid, castObjectId id = some oid → (∀ p ∈ db.papers, p._id ≠ oid) →
          getHandler lib env db id
            = { status := 404, body := .messageOnly "Research paper not found" })
      ∧ (∀ p, p ∈ db.papers → castObjectId id = some p._id →
          (db.papers.map (fun q => q._id)).Nodup →
          getHandler lib env db id = { status := 200, body := .populated (populate db p) }) := by
  refine ⟨?_, ?_, ?_⟩
  · intro hcast
    simp [getHandler, getOp, findById, hcast, Except.map]
  · intro oid hcast habsent
    have hfind : db.papers.find? (fun p => p._id == oid) = none := by
      rw [List.find?_eq_none]
      intro p hp
      simpa using habsent p hp
    simp [getHandler, getOp, findById, hcast, hfault, hfind, Except.map]
  · intro p hp hcast hnodup
    have hfind := find?_id_of_nodup db.papers p hp hnodup
    simp [getHandler, getOp, findById, hcast, hfault, hfind, Except.map]

/-- Witness for C3, amended: the three outcomes on a store holding one paper. -/
theorem get_by_id_outcomes_witness :
    (Env.quiet 0 "aaaaaaaaaaaaaaaaaaaaaaaa").fault = none
    ∧ getHandler Lib.basic (Env.quiet 0 "aaaaaaaaaaaaaaaaaaaaaaaa") Store.sample "abc"
        = serverError Lib.basic (.castId "abc")
    ∧ getHandler Lib.basic (Env.quiet 0 "aaaaaaaaaaaaaaaaaaaaaaaa") Store.sample
          "000000000000000000000000"
        = { status := 404, body := .messageOnly "Research paper not found" }
    ∧ getHandler Lib.basic (Env.quiet 0 "aaaaaaaaaaaaaaaaaaaaaaaa") Store.sample
          "AAAAAAAAAAAAAAAAAAAAAAAA"
        = { status := 200,
            body := .populated (populate Store.sample (paperABC "aaaaaaaaaaaaaaaaaaaaaaaa" 5)) } :=
  ⟨rfl,
    (get_by_id_outcomes Lib.basic (Env.quiet 0 "aaaaaaaaaaaaaaaaaaaaaaaa") Store.sample "abc"
      rfl).1 (by decide),
    (get_by_id_outcomes Lib.basic (Env.quiet 0 "aaaaaaaaaaaaaaaaaaaaaaaa") Store.sample
      "000000000000000000000000" rfl).2.1 "000000000000000000000000" (by decide) (by decide),
    (get_by_id_outcomes Lib.basic (Env.quiet 0 "aaaaaaaaaaaaaaaaaaaaaaaa") Store.sample
      "AAAAAAAAAAAAAAAAAAAAAAAA" rfl).2.2 (paperABC "aaaaaaaaaaaaaaaaaaaaaaaa" 5)
      (by decide) (by decide) (by decide)⟩

/-! ## Listing after creating -/

/-- C4, counterexample: on a store without users, one successful create whose uploadedBy is
a well-formed identifier of no user, followed by the list handler, returns that paper with
uploadedBy null: there is no user record to show. -/
theorem list_dangling_uploader_is_null :
    (createMany Lib.basic Store.empty
        [(Env.quiet 5 "aaaaaaaaaaaaaaaaaaaaaaaa", bodyABC)]).1
      = [{ status := 201, body := .record (paperABC "aaaaaaaaaaaaaaaaaaaaaaaa" 5) }]
    ∧ listHandler Lib.basic (Env.quiet 6 "bbbbbbbbbbbbbbbbbbbbbbbb")
        (createMany Lib.basic Store.empty
          [(Env.quiet 5 "aaaaaaaaaaaaaaaaaaaaaaaa", bodyABC)]).2
      = { status := 200,
          body := .list [populate Store.empty (paperABC "aaaaaaaaaaaaaaaaaaaaaaaa" 5)] }
    ∧ (populate Store.empty (paperABC "aaaaaaaaaaaaaaaaaaaaaaaa" 5)).uploadedBy = none := by
  decide

/-- C4, amended: after N successful creates with no other write in between, the list
handler (driver not failing) returns status 200 with the initial papers followed by the N
created ones, so initial count plus N entries, each created paper among them; in every
returned paper uploadedBy is the identifier and username of the user the paper points to
when a user with that identifier exists, and null when none does. -/
theorem list_after_creates (lib : Lib) (db : Store) (reqs : List (Env × JVal)) (env : Env)
    (hok : ∀ r ∈ (createMany lib db reqs).1, r.status = 201)
    (hfault : env.fault = none) :
    ∃ created : List ResearchPaper, ∃ listed : List PopulatedPaper,
      (createMany lib db reqs).1
          = created.map (fun p => ({ status := 201, body := .record p } : Response))
        ∧ listHandler lib env (createMany lib db reqs).2 = { status := 200, body := .list listed }
        ∧ listed = (db.papers ++ created).map (populate (createMany lib db reqs).2)
        ∧ listed.length = db.papers.length + reqs.length
        ∧ (∀ p ∈ created, populate (createMany lib db reqs).2 p ∈ listed)
        ∧ (∀ p ∈ db.papers ++ created,
            ((∀ u ∈ db.users, u._id ≠ p.uploadedBy) →
              (populate (createMany lib db reqs).2 p).uploadedBy = none)
            ∧ ((∃ u ∈ db.users, u._id = p.uploadedBy) →
              ∃ u ∈ db.users, u._id = p.uploadedBy
                ∧ (populate (createMany lib db reqs).2 p).uploadedBy
                  = some { _id := p.uploadedBy, username := u.username })) := by
  obtain ⟨created, h1, h2, h3⟩ := createMany_created lib reqs db hok
  refine ⟨created, (db.papers ++ created).map (populate (createMany lib db reqs).2),
    h1, ?_, rfl, ?_, ?_, ?_⟩
  · simp [listHandler, listOp, find, hfault, Except.map, h2]
  · simp [h3]
  · intro p hp
    exact List.mem_map.mpr ⟨p, List.mem_append_right _ hp, rfl⟩
  · intro p _
    rw [h2]
    constructor
    · intro hnone
      have hfind : db.users.find? (fun u => u._id == p.uploadedBy) = none := by
        rw [List.find?_eq_none]
        intro u hu
        simpa using hnone u hu
      simp [populate, hfind]
    · rintro ⟨u, hu, hid⟩
      cases hfind : db.users.find? (fun u => u._id == p.uploadedBy) with
      | none =>
        rw [List.find?_eq_none] at hfind
        exact absurd (by simpa using hid) (hfind u hu)
      | some v =>
        have hv := List.find?_some hfind
        have hmem := List.mem_of_find?_eq_some hfind
        simp only [beq_iff_eq] at hv
        exact ⟨v, hmem, hv, by simp [populate, hfind, hv]⟩

/-- Witness for C4, amended: one create on a store that holds a paper and its uploader. -/
theorem list_after_creates_witness :
    (∀ r ∈ (createMany Lib.basic Store.sample
        [(Env.quiet 7 "bbbbbbbbbbbbbbbbbbbbbbbb", bodyABC)]).1, r.status = 201)
    ∧ ∃ created : List ResearchPaper, ∃ listed : List PopulatedPaper,
      (createMany Lib.basic Store.sample [(Env.quiet 7 "bbbbbbbbbbbbbbbbbbbbbbbb", bodyABC)]).1
          = created.map (fun p => ({ status := 201, body := .record p } : Response))
        ∧ listHandler Lib.basic (Env.quiet 9 "cccccccccccccccccccccccc")
            (createMany Lib.basic Store.sample
              [(Env.quiet 7 "bbbbbbbbbbbbbbbbbbbbbbbb", bodyABC)]).2
          = { status := 200, body := .list listed }
        ∧ listed.length = 1 + 1 :=
  ⟨by decide,
    (list_after_creates Lib.basic Store.sample [(Env.quiet 7 "bbbbbbbbbbbbbbbbbbbbbbbb", bodyABC)]
      (Env.quiet 9 "cccccccccccccccccccccccc") (by decide) rfl).imp
      (fun _ h => h.imp (fun _ h => ⟨h.1, h.2.1, h.2.2.2.1⟩))⟩

/-! ## Errors and response shapes -/

/-- C5: in each of the three handlers an error raised by the operation inside `try` is not
propagated but answered with status 500 and the body made of the message `Server error`
and the text of that error; a driver failure forwards the driver text as it is; the store
is left unchanged by a failed create; and status 500 arises in no other way. -/
theorem handlers_forward_errors (lib : Lib) (env : Env) (db : Store) (id : String)
    (body : JVal) :
    (∀ e, listOp env db = .error e →
        listHandler lib env db
          = { status := 500, body := .messageError "Server error" (e.message lib) })
      ∧ (∀ e, getOp env db id = .error e →
        getHandler lib env db id
          = { status := 500, body := .messageError "Server error" (e.message lib) })
      ∧ (∀ e, createOp lib env db body = .error e →
        createHandler lib env db body
          = ({ status := 500, body := .messageError "Server error" (e.message lib) }, db))
      ∧ (∀ text, env.fault = some text →
        listHandler lib env db
          = { status := 500, body := .messageError "Server error" text })
      ∧ ((listHandler lib env db).status = 500 → ∃ e, listOp env db = .error e)
      ∧ ((getHandler lib env db id).status = 500 → ∃ e, getOp env db id = .error e)
      ∧ ((createHandler lib env db body).1.status = 500 →
          ∃ e, createOp lib env db body = .error e) := by
  refine ⟨?_, ?_, ?_, ?_, ?_, ?_, ?_⟩
  · intro e h
    simp [listHandler, h, serverError]
  · intro e h
    simp [getHandler, h, serverError]
  · intro e h
    simp [createHandler, h, serverError]
  · intro text h
    simp [listHandler, listOp, find, h, Except.map, serverError, StoreError.message]
  · intro h
    cases hop : listOp env db with
    | error e => exact ⟨e, rfl⟩
    | ok papers => simp [listHandler, hop] at h
  · intro h
    cases hop : getOp env db id with
    | error e => exact ⟨e, rfl⟩
    | ok found => cases found <;> simp [getHandler, hop] at h
  · intro h
    cases hop : createOp lib env db body with
    | error e => exact ⟨e, rfl⟩
    | ok r => simp [createHandler, hop] at h

/-- Witness for C5: a driver failure during the list query, and an identifier that does
not cast. -/
theorem handlers_forward_errors_witness :
    listOp (Env.failing "connection refused") Store.sample
        = .error (.driver "connection refused")
    ∧ listHandler Lib.basic (Env.failing "connection refused") Store.sample
        = { status := 500, body := .messageError "Server error" "connection refused" }
    ∧ getHandler Lib.basic (Env.failing "connection refused") Store.sample "abc"
        = { status := 500, body := .messageError "Server error" "CastError: abc" } :=
  ⟨rfl,
    (handlers_forward_errors Lib.basic (Env.failing "connection refused") Store.sample "abc"
      bodyABC).1 (.driver "connection refused") rfl,
    (handlers_forward_errors Lib.basic (Env.failing "connection refused") Store.sample "abc"
      bodyABC).2.1 (.castId "abc") rfl⟩

/-- C6, counterexample: the response to a well-formed identifier of no stored paper has
status 404 and a body with a message field and no error field. -/
theorem not_found_body_has_no_error_field :
    (getHandler Lib.basic (Env.quiet 0 "aaaaaaaaaaaaaaaaaaaaaaaa") Store.empty
        "000000000000000000000000").status = 404
    ∧ (getHandler Lib.basic (Env.quiet 0 "aaaaaaaaaaaaaaaaaaaaaaaa") Store.empty
        "000000000000000000000000").body.messageField = some "Research paper not found"
    ∧ (getHandler Lib.basic (Env.quiet 0 "aaaaaaaaaaaaaaaaaaaaaaaa") Store.empty
        "000000000000000000000000").body.errorField = none := by
  decide

/-- C6, amended: every response of the three handlers has status 200, 201, 404 or 500; a
500 body has the message field `Server error` and an error field holding the text of the
error raised inside that handler; a 404 body, which only the single-paper handler
produces, is the not-found message alone, without an error field; a 200 body of the list
handler is the whole stored collection, each paper with its uploader resolved; a 200 body
of the single-paper handler is the stored paper carrying the requested identifier, uploader
resolved; a 201 body is the paper just appended to the collection. -/
theorem response_shapes (lib : Lib) (env : Env) (db : Store) (id : String) (body : JVal) :
    ((listHandler lib env db).status = 200 ∨ (listHandler lib env db).status = 500)
      ∧ ((getHandler lib env db id).status = 200 ∨ (getHandler lib env db id).status = 404
          ∨ (getHandler lib env db id).status = 500)
      ∧ ((createHandler lib env db body).1.status = 201
          ∨ (createHandler lib env db body).1.status = 500)
      ∧ ((listHandler lib env db).status = 500 →
          ∃ e, listOp env db = .error e
            ∧ (listHandler lib env db).body.messageField = some "Server error"
            ∧ (listHandler lib env db).body.errorField = some (e.message lib))
      ∧ ((getHandler lib env db id).status = 500 →
          ∃ e, getOp env db id = .error e
            ∧ (getHandler lib env db id).body.messageField = some "Server error"
            ∧ (getHandler lib env db id).body.errorField = some (e.message lib))
      ∧ ((createHandler lib env db body).1.status = 500 →
          ∃ e, createOp lib env db body = .error e
            ∧ (createHandler lib env db body).1.body.messageField = some "Server error"
            ∧ (createHandler lib env db body).1.body.errorField = some (e.message lib))
      ∧ ((getHandler lib env db id).status = 404 →
          (getHandler lib env db id).body = .messageOnly "Research paper not found"
            ∧ (getHandler lib env db id).body.messageField = some "Research paper not found"
            ∧ (getHandler lib env db id).body.errorField = none)
      ∧ ((listHandler lib env db).status = 200 →
          (listHandler lib env db).body = .list (db.papers.map (populate db)))
      ∧ ((getHandler lib env db id).status = 200 →
          ∃ paper, paper ∈ db.papers ∧ castObjectId id = some paper._id
            ∧ db.papers.find? (fun q => q._id == paper._id) = some paper
            ∧ (getHandler lib env db id).body = .populated (populate db paper))
      ∧ ((createHandler lib env db body).1.status = 201 →
          ∃ paper, (createHandler lib env db body).1.body = .record paper
            ∧ (createHandler lib env db body).2 = { db with papers := db.papers ++ [paper] }
            ∧ paper ∈ (createHandler lib env db body).2.papers) := by
  have hlist200 : (listHandler lib env db).status = 200 →
      (listHandler lib env db).body = .list (db.papers.map (populate db)) := by
    cases hf : env.fault with
    | some text => simp [listHandler, listOp, find, hf, Except.map, serverError]
    | none => simp [listHandler, listOp, find, hf, Except.map]
  have hget200 : (getHandler lib env db id).status = 200 →
      ∃ paper, paper ∈ db.papers ∧ castObjectId id = some paper._id
        ∧ db.papers.find? (fun q => q._id == paper._id) = some paper
        ∧ (getHandler lib env db id).body = .populated (populate db paper) := by
    cases hc : castObjectId id with
    | none => simp [getHandler, getOp, findById, hc, Except.map, serverError]
    | some oid =>
      cases hf : env.fault with
      | some text => simp [getHandler, getOp, findById, hc, hf, Except.map, serverError]
      | none =>
        cases hfind : db.papers.find? (fun q => q._id == oid) with
        | none => simp [getHandler, getOp, findById, hc, hf, hfind, Except.map]
        | some paper =>
          intro _
          have hid : paper._id = oid := by simpa using List.find?_some hfind
          refine ⟨paper, List.mem_of_find?_eq_some hfind, by rw [hid], by rw [hid]; exact hfind, ?_⟩
          simp [getHandler, getOp, findById, hc, hf, hfind, Except.map]
  have hlist : (∃ e, listOp env db = .error e ∧ listHandler lib env db = serverError lib e)
      ∨ ∃ papers, listHandler lib env db = { status := 200, body := .list papers } := by
    cases hop : listOp env db with
    | error e => exact Or.inl ⟨e, rfl, by simp [listHandler, hop]⟩
    | ok papers => exact Or.inr ⟨papers, by simp [listHandler, hop]⟩
  have hget : (∃ e, getOp env db id = .error e ∧ getHandler lib env db id = serverError lib e)
      ∨ getHandler lib env db id
          = { status := 404, body := .messageOnly "Research paper not found" }
      ∨ ∃ paper, getHandler lib env db id = { status := 200, body := .populated paper } := by
    cases hop : getOp env db id with
    | error e => exact Or.inl ⟨e, rfl, by simp [getHandler, hop]⟩
    | ok found =>
      cases found with
      | none => exact Or.inr (Or.inl (by simp [getHandler, hop]))
      | some paper => exact Or.inr (Or.inr ⟨paper, by simp [getHandler, hop]⟩)
  have hcreate : (∃ e, createOp lib env db body = .error e
        ∧ createHandler lib env db body = (serverError lib e, db))
      ∨ ∃ paper, createHandler lib env db body
          = ({ status := 201, body := .record paper },
             { db with papers := db.papers ++ [paper] }) := by
    cases hop : createOp lib env db body with
    | error e => exact Or.inl ⟨e, rfl, by simp [createHandler, hop]⟩
    | ok res =>
      obtain ⟨paper, db'⟩ := res
      obtain ⟨hdb, -, -⟩ := createOp_ok lib env db body paper db' hop
      exact Or.inr ⟨paper, by simp [createHandler, hop, hdb]⟩
  refine ⟨?_, ?_, ?_, ?_, ?_, ?_, ?_, ?_, ?_, ?_⟩
  · rcases hlist with ⟨e, -, h⟩ | ⟨papers, h⟩ <;> simp [h, serverError]
  · rcases hget with ⟨e, -, h⟩ | h | ⟨paper, h⟩ <;> simp [h, serverError]
  · rcases hcreate with ⟨e, -, h⟩ | ⟨paper, h⟩ <;> simp [h, serverError]
  · rcases hlist with ⟨e, he, h⟩ | ⟨papers, h⟩
    · intro _
      exact ⟨e, he, by simp [h, serverError, Body.messageField, Body.errorField]⟩
    · simp [h]
  · rcases hget with ⟨e, he, h⟩ | h | ⟨paper, h⟩
    · intro _
      exact ⟨e, he, by simp [h, serverError, Body.messageField, Body.errorField]⟩
    · simp [h]
    · simp [h]
  · rcases hcreate with ⟨e, he, h⟩ | ⟨paper, h⟩
    · intro _
      exact ⟨e, he, by simp [h, serverError, Body.messageField, Body.errorField]⟩
    · simp [h]
  · rcases hget with ⟨e, -, h⟩ | h | ⟨paper, h⟩ <;>
      simp [h, serverError, Body.messageField, Body.errorField]
  · exact hlist200
  · exact hget200
  · rcases hcreate with ⟨e, -, h⟩ | ⟨paper, h⟩ <;> simp [h, serverError]

/-- Witness for C6, amended: on a store holding one paper, the response to an identifier
that does not cast, and the list response. -/
theorem response_shapes_witness :
    (getHandler Lib.basic (Env.quiet 0 "aaaaaaaaaaaaaaaaaaaaaaaa") Store.sample "abc").status
        = 500
    ∧ (∃ e, getOp (Env.quiet 0 "aaaaaaaaaaaaaaaaaaaaaaaa") Store.sample "abc" = .error e
      ∧ (getHandler Lib.basic (Env.quiet 0 "aaaaaaaaaaaaaaaaaaaaaaaa") Store.sample
          "abc").body.messageField = some "Server error"
      ∧ (getHandler Lib.basic (Env.quiet 0 "aaaaaaaaaaaaaaaaaaaaaaaa") Store.sample
          "abc").body.errorField = some (e.message Lib.basic))
    ∧ (listHandler Lib.basic (Env.quiet 0 "aaaaaaaaaaaaaaaaaaaaaaaa") Store.sample).status
        = 200
    ∧ (listHandler Lib.basic (Env.quiet 0 "aaaaaaaaaaaaaaaaaaaaaaaa") Store.sample).body
        = .list [populate Store.sample (paperABC "aaaaaaaaaaaaaaaaaaaaaaaa" 5)] :=
  ⟨by decide,
    (response_shapes Lib.basic (Env.quiet 0 "aaaaaaaaaaaaaaaaaaaaaaaa") Store.sample "abc"
      bodyABC).2.2.2.2.1 (by decide),
    by decide,
    (response_shapes Lib.basic (Env.quiet 0 "aaaaaaaaaaaaaaaaaaaaaaaa") Store.sample "abc"
      bodyABC).2.2.2.2.2.2.2.1 (by decide)⟩

/-! ## Client routing -/

/-- C7, counterexample: with the empty string stored under `token`, a token is present in
local storage, yet after the load effect the upload route renders the redirect to
`/login`, not the upload view. -/
theorem upload_route_empty_token_redirects :
    (some "" : Option String).isSome = true
    ∧ App.render (App.loadEffect (some "") App.initial) .upload = .navigate "/login"
    ∧ App.render (App.loadEffect (some "") App.initial) .upload ≠ .uploadPaper := by
  decide

/-- C7, amended: once the load effect has run, the upload route renders the upload view if
and only if local storage holds a non-empty token, and the redirect to `/login`
otherwise; the dashboard and paper-list routes render their views whatever is stored. -/
theorem upload_route_iff_nonempty_token (stored : Option String) :
    (App.render (App.loadEffect stored App.initial) .upload = .uploadPaper
        ↔ ∃ token, stored = some token ∧ token ≠ "")
      ∧ (¬ (∃ token, stored = some token ∧ token ≠ "") →
          App.render (App.loadEffect stored App.initial) .upload = .navigate "/login")
      ∧ App.render (App.loadEffect stored App.initial) .root = .dashboard
      ∧ App.render (App.loadEffect stored App.initial) .papers = .researchPapers
      ∧ App.render App.initial .upload = .loadingNotice := by
  cases stored with
  | none => simp [App.render, App.loadEffect, App.initial, App.element]
  | some token =>
    by_cases h : token = "" <;>
      simp [App.render, App.loadEffect, App.initial, App.element, h]

/-! ## Dashboard statistics -/

theorem keepRecent_fixed_clock (clock : Nat → Int) (now : Int) (hclock : ∀ k, clock k = now)
    (papers : List ListedPaper) (k : Nat) :
    Dashboard.keepRecent clock k papers = papers.filter (Dashboard.isRecent now) := by
  induction papers generalizing k with
  | nil => rfl
  | cons p rest ih =>
    simp only [Dashboard.keepRecent, hclock, ih, List.filter_cons]

/-- C8: the statistics written by `fetchStats` are those of the paper list of the render
that created it.  On mount that list is the initial empty one, so for every list the
server returns the statistics become 0 papers, 10 users and 0 recent uploads while the
papers state becomes the fetched list; in general the recent count is the number of
captured papers whose upload time is strictly later than seven days before the clock
reading. -/
theorem dashboard_stats_from_captured_list (data : List ListedPaper) (clock : Nat → Int)
    (captured s : DashState) (now : Int) :
    Dashboard.mountEffect (.ok data) clock
        = { papers := data,
            stats := { totalPapers := 0, totalUsers := 10, recentUploads := 0 } }
      ∧ (Dashboard.fetchStats captured clock s).stats.totalPapers = captured.papers.length
      ∧ (Dashboard.fetchStats captured clock s).stats.totalUsers = 10
      ∧ (Dashboard.fetchStats captured clock s).papers = s.papers
      ∧ ((∀ k, clock k = now) →
          (Dashboard.fetchStats captured clock s).stats.recentUploads
            = captured.papers.countP (fun p =>
                match p.uploadTime with
                | some t => decide (now - 7 * 24 * 60 * 60 * 1000 < t)
                | none => false)) := by
  refine ⟨rfl, rfl, rfl, rfl, ?_⟩
  intro hclock
  simp only [Dashboard.fetchStats, keepRecent_fixed_clock clock now hclock, List.countP_eq_length_filter]
  rfl

/-- Witness for C8: with the clock at 700000000, one of two captured papers is recent. -/
theorem dashboard_stats_from_captured_list_witness :
    (∀ k : Nat, (fun _ : Nat => (700000000 : Int)) k = 700000000)
    ∧ (Dashboard.fetchStats
        { papers := [{ _id := "a", title := "old", uploadTime := some 95200000 },
                     { _id := "b", title := "new", uploadTime := some 95200001 },
                     { _id := "c", title := "undated", uploadTime := none }],
          stats := { totalPapers := 0, totalUsers := 0, recentUploads := 0 } }
        (fun _ => 700000000) Dashboard.initial).stats.recentUploads
      = List.countP (fun p : ListedPaper =>
            match p.uploadTime with
            | some t => decide ((700000000 : Int) - 7 * 24 * 60 * 60 * 1000 < t)
            | none => false)
          [{ _id := "a", title := "old", uploadTime := some 95200000 },
           { _id := "b", title := "new", uploadTime := some 95200001 },
           { _id := "c", title := "undated", uploadTime := none }] :=
  ⟨fun _ => rfl,
    (dashboard_stats_from_captured_list []
      (fun _ => 700000000)
      { papers := [{ _id := "a", title := "old", uploadTime := some 95200000 },
                   { _id := "b", title := "new", uploadTime := some 95200001 },
                   { _id := "c", title := "undated", uploadTime := none }],
        stats := { totalPapers := 0, totalUsers := 0, recentUploads := 0 } }
      Dashboard.initial 700000000).2.2.2.2 (fun _ => rfl)⟩

/-! ## The upload form -/

theorem errorMessage_eq (e : HttpError) (text : String)
    (h : jsText (UploadPaper.responseMessage e) = some text) :
    UploadPaper.errorMessage e = some ("Error uploading paper: " ++ text) := by
  have hne : "Error uploading paper: " ++ text ≠ "" := by
    intro h
    have hd := congrArg String.data h
    simp only [String.data_append] at hd
    have hl := congrArg List.length hd
    simp at hl
  simp only [UploadPaper.errorMessage, h, hne, if_false]

/-- C9, counterexample: the form passes the gate and the request fails with response data
whose `message` is an object carrying a field named `toString`.  That value has no string
form: forming the sum throws, no error message is set, the message is left empty and is
not `Error uploading paper: ` followed by anything, and the handler rejects. -/
theorem upload_failure_unprintable_message :
    jsText (UploadPaper.responseMessage unprintableError) = none
    ∧ (UploadPaper.handleSubmit (some "tok") (.error unprintableError) filledForm).1
      = { file := some { name := "p.pdf", size := 1 }, title := "T", abstract := "A",
          authors := "", keywords := "", uploading := false, message := "" }
    ∧ (∀ text : String,
        (UploadPaper.handleSubmit (some "tok") (.error unprintableError) filledForm).1.message
          ≠ "Error uploading paper: " ++ text)
    ∧ UploadPaper.handleSubmitRejects (.error unprintableError) filledForm = true := by
  refine ⟨by decide, by decide, ?_, by decide⟩
  intro text h
  have hm : (UploadPaper.handleSubmit (some "tok") (.error unprintableError)
      filledForm).1.message = "" := by decide
  rw [hm] at h
  have hd := congrArg String.data h
  simp only [String.data_append] at hd
  have hl := congrArg List.length hd
  simp at hl

/-- C9, amended: when the form passes the gate and the upload request throws an error
whose `error.response?.data?.message` has a string form, the message shown is
`Error uploading paper: ` followed by that string form and the handler does not reject;
the fallback `error.message` is never taken, so an error without a response message shows
`Error uploading paper: undefined`, and a response whose data carries a string `message`
shows `Error uploading paper: ` followed by that string.  The optional chain reads the
`message` field of an object in the response data and is undefined when there is no
response, no data, null data or data that is not an object.  For every error the
uploading flag is false afterwards and the form fields are unchanged. -/
theorem upload_failure_message (token : Option String) (e : HttpError) (s : FormState)
    (file : File) (hfile : s.file = some file) (ht : s.title ≠ "") (ha : s.abstract ≠ "") :
    (∀ text, jsText (UploadPaper.responseMessage e) = some text →
        (UploadPaper.handleSubmit token (.error e) s).1
            = { s with message := "Error uploading paper: " ++ text, uploading := false }
          ∧ UploadPaper.handleSubmitRejects (.error e) s = false)
      ∧ (UploadPaper.responseMessage e = none →
          (UploadPaper.handleSubmit token (.error e) s).1
            = { s with message := "Error uploading paper: undefined", uploading := false })
      ∧ (e.response = none → UploadPaper.responseMessage e = none)
      ∧ (∀ r, e.response = some r → r.data = none → UploadPaper.responseMessage e = none)
      ∧ (∀ r, e.response = some r → r.data = some .null →
          UploadPaper.responseMessage e = none)
      ∧ (∀ r fields, e.response = some r → r.data = some (.obj fields) →
          UploadPaper.responseMessage e = fields.lookup "message")
      ∧ (∀ r d, e.response = some r → r.data = some d → (∀ fields, d ≠ .obj fields) →
          UploadPaper.responseMessage e = none)
      ∧ (∀ r fields m, e.response = some r → r.data = some (.obj fields) →
          fields.lookup "message" = some (.str m) →
          (UploadPaper.handleSubmit token (.error e) s).1
            = { s with message := "Error uploading paper: " ++ m, uploading := false })
      ∧ (UploadPaper.handleSubmit token (.error e) s).1.uploading = false
      ∧ (UploadPaper.handleSubmit token (.error e) s).1.file = s.file
      ∧ (UploadPaper.handleSubmit token (.error e) s).1.title = s.title
      ∧ (UploadPaper.handleSubmit token (.error e) s).1.abstract = s.abstract
      ∧ (UploadPaper.handleSubmit token (.error e) s).1.authors = s.authors
      ∧ (UploadPaper.handleSubmit token (.error e) s).1.keywords = s.keywords := by
  have hstate : ∀ text, jsText (UploadPaper.responseMessage e) = some text →
      (UploadPaper.handleSubmit token (.error e) s).1
        = { s with message := "Error uploading paper: " ++ text, uploading := false } := by
    intro text h
    simp [UploadPaper.handleSubmit, hfile, ht, ha, errorMessage_eq e text h]
  have hrest : (UploadPaper.handleSubmit token (.error e) s).1.uploading = false
      ∧ (UploadPaper.handleSubmit token (.error e) s).1.file = s.file
      ∧ (UploadPaper.handleSubmit token (.error e) s).1.title = s.title
      ∧ (UploadPaper.handleSubmit token (.error e) s).1.abstract = s.abstract
      ∧ (UploadPaper.handleSubmit token (.error e) s).1.authors = s.authors
      ∧ (UploadPaper.handleSubmit token (.error e) s).1.keywords = s.keywords := by
    cases hm : UploadPaper.errorMessage e <;>
      simp [UploadPaper.handleSubmit, hfile, ht, ha, hm]
  refine ⟨?_, ?_, ?_, ?_, ?_, ?_, ?_, ?_, hrest⟩
  · intro text h
    refine ⟨hstate text h, ?_⟩
    simp [UploadPaper.handleSubmitRejects, hfile, ht, ha, errorMessage_eq e text h]
  · intro hnone
    exact hstate "undefined" (by rw [hnone]; rfl)
  · intro hresp
    simp [UploadPaper.responseMessage, hresp]
  · intro r hresp hdata
    simp [UploadPaper.responseMessage, hresp, hdata]
  · intro r hresp hdata
    simp [UploadPaper.responseMessage, hresp, hdata]
  · intro r fields hresp hdata
    simp [UploadPaper.responseMessage, hresp, hdata, JVal.field]
  · intro r d hresp hdata hobj
    cases d with
    | obj fields => exact absurd rfl (hobj fields)
    | _ => simp [UploadPaper.responseMessage, hresp, hdata, JVal.field]
  · intro r fields m hresp hdata hm
    apply hstate
    simp [UploadPaper.responseMessage, hresp, hdata, JVal.field, hm, jsText, JVal.toText]

/-- Witness for C9, amended: a response that carries a message, and a network error,
which carries no response. -/
theorem upload_failure_message_witness :
    (filledForm.file = some { name := "p.pdf", size := 1 }
      ∧ filledForm.title ≠ "" ∧ filledForm.abstract ≠ "")
    ∧ (UploadPaper.handleSubmit (some "tok") (.error tooLargeError) filledForm).1
      = { file := some { name := "p.pdf", size := 1 }, title := "T", abstract := "A",
          authors := "", keywords := "", uploading := false,
          message := "Error uploading paper: File too large" }
    ∧ (UploadPaper.handleSubmit (some "tok") (.error networkError) filledForm).1
      = { file := some { name := "p.pdf", size := 1 }, title := "T", abstract := "A",
          authors := "", keywords := "", uploading := false,
          message := "Error uploading paper: undefined" } :=
  ⟨by decide,
    ((upload_failure_message (some "tok") tooLargeError filledForm
      { name := "p.pdf", size := 1 } rfl (by decide) (by decide)).1 "File too large" rfl).1,
    (upload_failure_message (some "tok") networkError filledForm
      { name := "p.pdf", size := 1 } rfl (by decide) (by decide)).2.1 rfl⟩

/-- C10: when the file is absent or the title or the abstract is empty, `handleSubmit`
issues no request, sets the message to `Please fill in all required fields` and leaves
every other state cell as it was; when all three are present it issues exactly one POST
to the upload endpoint carrying the file, title, abstract, authors and keywords fields
and a Bearer Authorization header, whatever authors and keywords are. -/
theorem upload_validation_gate (token : Option String)
    (outcome : Except HttpError HttpResponse) (s : FormState) :
    ((s.file = none ∨ s.title = "" ∨ s.abstract = "") →
        UploadPaper.handleSubmit token outcome s
          = ({ s with message := "Please fill in all required fields" }, []))
      ∧ (∀ file, s.file = some file → s.title ≠ "" → s.abstract ≠ "" →
          (UploadPaper.handleSubmit token outcome s).2
            = [{ method := "POST"
                 url := "http://localhost:5000/api/research/upload"
                 form := [("file", .blob file), ("title", .text s.title),
                          ("abstract", .text s.abstract), ("authors", .text s.authors),
                          ("keywords", .text s.keywords)]
                 headers := [("Content-Type", "multipart/form-data"),
                             ("Authorization", "Bearer " ++ token.getD "null")] }]) := by
  constructor
  · intro h
    cases hf : s.file with
    | none => simp [UploadPaper.handleSubmit, hf]
    | some file =>
      have h' : s.title = "" ∨ s.abstract = "" := by
        rcases h with h | h | h
        · simp [hf] at h
        · exact Or.inl h
        · exact Or.inr h
      simp [UploadPaper.handleSubmit, hf, h']
  · intro file hf ht ha
    simp [UploadPaper.handleSubmit, hf, ht, ha, UploadPaper.uploadRequest]

/-- Witness for C10: a form without a file, and a complete form with empty authors and
keywords. -/
theorem upload_validation_gate_witness :
    UploadPaper.handleSubmit none (.ok { status := 201, data := none })
        { file := none, title := "T", abstract := "A", authors := "x", keywords := "y",
          uploading := false, message := "" }
      = ({ file := none, title := "T", abstract := "A", authors := "x", keywords := "y",
           uploading := false, message := "Please fill in all required fields" }, [])
    ∧ (UploadPaper.handleSubmit (some "tok") (.ok { status := 201, data := none })
        { file := some { name := "p.pdf", size := 1 }, title := "T", abstract := "A",
          authors := "", keywords := "", uploading := false, message := "" }).2
      = [{ method := "POST"
           url := "http://localhost:5000/api/research/upload"
           form := [("file", .blob { name := "p.pdf", size := 1 }), ("title", .text "T"),
                    ("abstract", .text "A"), ("authors", .text ""), ("keywords", .text "")]
           headers := [("Content-Type", "multipart/form-data"),
                       ("Authorization", "Bearer tok")] }] :=
  ⟨(upload_validation_gate none (.ok { status := 201, data := none })
      { file := none, title := "T", abstract := "A", authors := "x", keywords := "y",
        uploading := false, message := "" }).1 (Or.inl rfl),
    (upload_validation_gate (some "tok") (.ok { status := 201, data := none })
      { file := some { name := "p.pdf", size := 1 }, title := "T", abstract := "A",
        authors := "", keywords := "", uploading := false, message := "" }).2
      { name := "p.pdf", size := 1 } rfl (by decide) (by decide)⟩

end Appraisal
